import Mathlib

/-!
Verification of the identity-resolution and skin-retrieval pipeline of the
crafthead worker (`src/worker/services/mojang/service.ts`).

The service class `MojangRequestService` is embedded shallowly: the external
collaborators (username lookup, profile fetch, the key/value cache backing
`computeBuffer`, the texture HTTP fetch, base64+JSON decoding of the textures
property, and the MD5 primitive used by the offline-UUID derivation) are
gathered in an explicit environment record `MojangEnv`, and each method of the
service becomes a pure Lean function of that environment.  Asynchronous calls
become ordinary function calls; a thrown JavaScript error becomes
`Except.error`.  Every function additionally returns a `CallLog` recording
which collaborators were invoked, so that claims about calls *not* happening
("never invokes computeBuffer", "before any lookup occurs") are provable.

Helper modules of the repository that are referenced but whose sources are not
available (`util/uuid`, `util/cache-helper`, `data`) are modelled from the
specification; each such definition carries a doc comment starting with
"Modelled from the spec".
-/

namespace Crafthead

/-- Identity kind tag of a request (`IdentityKind` in `request.ts`). -/
inductive IdentityKind where
  | Username : IdentityKind
  | Uuid : IdentityKind
deriving DecidableEq, Repr

/-- The fields of `CraftheadRequest` that the mojang service reads and writes:
`identity` (a username or UUID text) and `identityType`.  A JavaScript
`undefined` identity is represented by the empty string, which is exactly how
the code observes it (both are falsy in the `!normalized.identity` check). -/
structure CraftheadRequest where
  identity : String
  identityType : IdentityKind
deriving DecidableEq, Repr

/-- One entry of a Mojang profile `properties` list (`MojangProfileProperty`). -/
structure MojangProfileProperty where
  name : String
  value : String
deriving DecidableEq, Repr

/-- A Mojang profile as consumed by the service: the `properties` list may be
absent (the code guards with `if (profile.properties)`). -/
structure MojangProfile where
  id : String
  name : String
  properties : Option (List MojangProfileProperty)
deriving DecidableEq, Repr

/-- Result of the username-lookup collaborator: `{id: UUID-text}`. -/
structure MojangProfileLookup where
  id : String
deriving DecidableEq, Repr

/-- A `{ url }` record inside the decoded textures blob.  The `url` field may
be absent at runtime even though the TypeScript type declares it, which is why
it is an `Option` (the claimed three-level optional-access contract). -/
structure TextureRef where
  url : Option String
deriving DecidableEq, Repr

/-- The decoded `textures` object: `{ SKIN?: {url}, CAPE?: {url} }`
(`MojangTextureUrls`). -/
structure MojangTextureUrls where
  SKIN : Option TextureRef
  CAPE : Option TextureRef
deriving DecidableEq, Repr

/-- The decoded value of the `"textures"` profile property
(`MojangTexturePropertyValue`). -/
structure MojangTexturePropertyValue where
  textures : MojangTextureUrls
deriving DecidableEq, Repr

/-- An HTTP response from the texture fetch: status code and body bytes.
`Response.ok` in the Fetch API means the status is in 200..299. -/
structure HttpResponse where
  status : Nat
  body : List Nat
deriving DecidableEq, Repr

/-- The observable parts of the `Response` objects the service constructs:
body bytes, status, and the `X-Crafthead-Skin-Cache-Hit` header when set. -/
structure Response where
  body : List Nat
  status : Nat
  cacheHitHeader : Option String
deriving DecidableEq, Repr

/-- Result record of the cache layer (`CacheComputeResult` in
`util/cache-helper`): a value plus a provenance string. -/
structure CacheComputeResult (α : Type) where
  result : α
  source : String
deriving DecidableEq, Repr

/-- Instrumentation: which collaborators a run invoked, in order of branch.
`usernameLookups` records `mojangApi.lookupUsername` calls, `profileFetches`
records `mojangApi.fetchProfile` calls, `computeBufferKeys` records
`computeBuffer` invocations, `textureFetches` records texture-URL HTTP GETs,
and `cacheWrites` records cache write-backs scheduled by `computeBuffer`. -/
structure CallLog where
  usernameLookups : List String
  profileFetches : List String
  computeBufferKeys : List String
  textureFetches : List String
  cacheWrites : List String
deriving DecidableEq, Repr

/-- The empty call log. -/
def CallLog.empty : CallLog :=
  { usernameLookups := [], profileFetches := [], computeBufferKeys := [],
    textureFetches := [], cacheWrites := [] }

/-- Concatenation of call logs (sequential composition of runs). -/
def CallLog.append (a b : CallLog) : CallLog :=
  { usernameLookups := a.usernameLookups ++ b.usernameLookups,
    profileFetches := a.profileFetches ++ b.profileFetches,
    computeBufferKeys := a.computeBufferKeys ++ b.computeBufferKeys,
    textureFetches := a.textureFetches ++ b.textureFetches,
    cacheWrites := a.cacheWrites ++ b.cacheWrites }

instance : Append CallLog := ⟨CallLog.append⟩

/-- Modelled from the spec (UUIDCodec, `util/uuid.ts` is not among the sampled
sources): value of one hex digit, case-insensitive. -/
def hexVal (c : Char) : Option Nat :=
  if '0' ≤ c ∧ c ≤ '9' then some (c.toNat - 48)
  else if 'a' ≤ c ∧ c ≤ 'f' then some (c.toNat - 87)
  else if 'A' ≤ c ∧ c ≤ 'F' then some (c.toNat - 55)
  else none

/-- Modelled from the spec: pair up hex digits into byte values. -/
def hexPairs : List Char → Option (List Nat)
  | [] => some []
  | [_] => none
  | c1 :: c2 :: rest => do
      let hi ← hexVal c1
      let lo ← hexVal c2
      let tail ← hexPairs rest
      pure ((16 * hi + lo) :: tail)

/-- Modelled from the spec (UUIDCodec `parseHex`): accepts the canonical hex
text with or without dashes, case-insensitively; exactly 32 hex digits;
malformed text is a `FormatError`, i.e. `none` here.  The JavaScript
`fromHex` returns the 16 raw bytes as the "byte representation actually used
by the identity". -/
def fromHex (s : String) : Option (List Nat) :=
  let chars := s.toList.filter (fun c => c ≠ '-')
  if chars.length = 32 then hexPairs chars else none

/-- Modelled from the spec: lowercase hex digit of a value below 16. -/
def hexDigit (n : Nat) : Char :=
  if n < 10 then Char.ofNat (48 + n) else Char.ofNat (87 + n)

/-- Modelled from the spec (UUIDCodec `toHex`, undashed form as used by
`normalizeRequest`): two lowercase hex digits per byte. -/
def toHex (bytes : List Nat) : String :=
  String.mk (bytes.map (fun b => [hexDigit (b / 16 % 16), hexDigit (b % 16)])).flatten

/-- Modelled from the spec (UUIDCodec `version`): the high nibble of byte 6 of
the raw UUID bytes. -/
def uuidVersion (bytes : List Nat) : Nat :=
  bytes.getD 6 0 / 16 % 16

/-- Wrap an integer into signed 32-bit two's-complement range, the Java
`int` overflow semantics. -/
def wrap32 (n : Int) : Int :=
  (n + 2 ^ 31) % 2 ^ 32 - 2 ^ 31

/-- Modelled from the spec (HashCode, `util/uuid.ts` `javaHashCode`): the Java
`String.hashCode` algorithm, `h = 31*h + code` over each code unit of the
byte representation of the identity, with 32-bit wraparound.  The argument is
the raw UUID byte values (each byte is one code unit). -/
def javaHashCode (bytes : List Nat) : Int :=
  bytes.foldl (fun h c => wrap32 (31 * h + (c : Int))) 0

/-- Modelled from the spec (OfflineUUIDDeriver): overwrite the version nibble
of byte 6 with 3 and the two high bits of byte 8 with the RFC-4122 variant
`10`.  For a byte `b < 256`, `(b AND 0x0f) OR 0x30 = b % 16 + 48` and
`(b AND 0x3f) OR 0x80 = b % 64 + 128`. -/
def setVersion3AndVariant (bytes : List Nat) : List Nat :=
  let b1 := bytes.set 6 (bytes.getD 6 0 % 16 + 48)
  b1.set 8 (b1.getD 8 0 % 64 + 128)

/-- Modelled from the spec (OfflineUUIDDeriver `derive` /
`offlinePlayerUuid`): the MD5 digest of `"OfflinePlayer:" ++ username`, with
the version nibble forced to 3 and the variant bits to RFC-4122 variant 1.
The MD5 primitive itself is an external capability passed in. -/
def offlinePlayerUuid (md5 : String → List Nat) (username : String) : List Nat :=
  setVersion3AndVariant (md5 ("OfflinePlayer:" ++ username))

/-- Modelled from the spec (`data.ts`): the fixed default Steve skin image, an
opaque non-empty PNG asset, represented here by a non-empty byte list (the
PNG signature). -/
def STEVE_SKIN : List Nat := [137, 80, 78, 71, 13, 10, 26, 10]

/-- Modelled from the spec (`data.ts`): the fixed default Alex skin image,
likewise non-empty and distinct from `STEVE_SKIN`. -/
def ALEX_SKIN : List Nat := [137, 80, 78, 71, 13, 10, 26, 11]

/-- The external collaborators of `MojangRequestService`, made explicit:
`lookupUsername` and `fetchProfileApi` are the two `MojangApiService`
methods, `cache` is the key/value store read by `computeBuffer`,
`textureFetch` is the plain HTTP GET used for texture URLs, `decodeTextures`
is the `atob` + `JSON.parse` decoding of a textures property value, and `md5`
is the digest primitive of the offline-UUID derivation. -/
structure MojangEnv where
  lookupUsername : String → Option MojangProfileLookup
  fetchProfileApi : String → CacheComputeResult (Option MojangProfile)
  cache : String → Option (List Nat)
  textureFetch : String → HttpResponse
  decodeTextures : String → MojangTexturePropertyValue
  md5 : String → List Nat

/-- `normalizeRequest` (service.ts lines 38-54): a request already bearing a
UUID passes through unchanged; otherwise the username is looked up, and on a
positive result the identity becomes the looked-up id, on a negative result
the offline-derived UUID of the username — in both cases with
`identityType = Uuid` on a fresh copy of the request. -/
def normalizeRequest (env : MojangEnv) (request : CraftheadRequest) :
    CraftheadRequest × CallLog :=
  if request.identityType = IdentityKind.Uuid then
    (request, CallLog.empty)
  else
    match env.lookupUsername request.identity with
    | some profileLookup =>
        ({ request with identityType := IdentityKind.Uuid, identity := profileLookup.id },
         { CallLog.empty with usernameLookups := [request.identity] })
    | none =>
        ({ request with
            identityType := IdentityKind.Uuid,
            identity := toHex (offlinePlayerUuid env.md5 request.identity) },
         { CallLog.empty with usernameLookups := [request.identity] })

/-- `extractUrlFromTexturesProperty` (service.ts lines 150-161): `undefined`
property yields `undefined`; otherwise the property value is decoded and
`textures.SKIN?.url` is read — absent `SKIN` and absent `url` each yield
`undefined`. -/
def extractUrlFromTexturesProperty (decode : String → MojangTexturePropertyValue)
    (property : Option MojangProfileProperty) : Option String :=
  match property with
  | none => none
  | some p => ((decode p.value).textures.SKIN).bind (fun skin => skin.url)

/-- `fetchSkinTextureFromProfile` (service.ts lines 109-137): when a texture
URL is present (JavaScript truthiness: neither `undefined` nor the empty
string), GET it; a non-2xx status throws
`"Unable to retrieve skin texture from Mojang, http status <status>"`.
Otherwise fall back to the Steve skin. -/
def fetchSkinTextureFromProfile (env : MojangEnv) (profile : MojangProfile) :
    Except String (List Nat) × CallLog :=
  match profile.properties with
  | some props =>
      match extractUrlFromTexturesProperty env.decodeTextures
          (props.find? (fun property => property.name = "textures")) with
      | some url =>
          if url = "" then
            (Except.ok STEVE_SKIN, CallLog.empty)
          else
            let textureResponse := env.textureFetch url
            if 200 ≤ textureResponse.status ∧ textureResponse.status ≤ 299 then
              (Except.ok textureResponse.body,
               { CallLog.empty with textureFetches := [url] })
            else
              (Except.error ("Unable to retrieve skin texture from Mojang, http status "
                  ++ toString textureResponse.status),
               { CallLog.empty with textureFetches := [url] })
      | none => (Except.ok STEVE_SKIN, CallLog.empty)
  | none => (Except.ok STEVE_SKIN, CallLog.empty)

/-- The producer closure passed to `computeBuffer` by `retrieveSkin`
(service.ts lines 75-82): fetch the profile; when it exists, fetch its skin
texture bytes; when it does not, return an empty buffer. -/
def skinProducer (env : MojangEnv) (identity : String) :
    Except String (Option (List Nat)) × CallLog :=
  match (env.fetchProfileApi identity).result with
  | some profile =>
      let t := fetchSkinTextureFromProfile env profile
      (t.1.map some, { t.2 with profileFetches := identity :: t.2.profileFetches })
  | none => (Except.ok (some []), { CallLog.empty with profileFetches := [identity] })

/-- Modelled from the spec (CacheComputationLayer `computeBuffer`,
`util/cache-helper.ts` is not among the sampled sources): a cache hit returns
the stored bytes with source `cache` without invoking the producer; a miss
invokes the producer — a produced value is returned with source `origin` and
a write-back is scheduled, a produced "no value" is returned with source
`origin` without a write, and a producer error propagates uncaught. -/
def computeBuffer (env : MojangEnv) (key : String)
    (producer : Unit → Except String (Option (List Nat)) × CallLog) :
    Except String (CacheComputeResult (Option (List Nat))) × CallLog :=
  match env.cache key with
  | some cached =>
      (Except.ok { result := some cached, source := "cache" },
       { CallLog.empty with computeBufferKeys := [key] })
  | none =>
      let produced := producer ()
      match produced.1 with
      | Except.error e =>
          (Except.error e,
           { produced.2 with computeBufferKeys := key :: produced.2.computeBufferKeys })
      | Except.ok (some value) =>
          (Except.ok { result := some value, source := "origin" },
           { produced.2 with
              computeBufferKeys := key :: produced.2.computeBufferKeys,
              cacheWrites := key :: produced.2.cacheWrites })
      | Except.ok none =>
          (Except.ok { result := none, source := "origin" },
           { produced.2 with computeBufferKeys := key :: produced.2.computeBufferKeys })

/-- The deterministic default branch of `retrieveSkin` (service.ts lines
94-106): Steve when `Math.abs(javaHashCode(rawUuid)) % 2 == 0`, Alex
otherwise, both tagged `invalid-profile`. -/
def fallbackSkinResponse (rawUuid : List Nat) : Response :=
  if (javaHashCode rawUuid).natAbs % 2 = 0 then
    { body := STEVE_SKIN, status := 200, cacheHitHeader := some "invalid-profile" }
  else
    { body := ALEX_SKIN, status := 200, cacheHitHeader := some "invalid-profile" }

/-- `retrieveSkin` (service.ts lines 56-107).  The special literals `char` and
`MHF_Steve` short-circuit to the Steve skin; an empty normalized identity
short-circuits to the Steve skin tagged `unknown`; a version-4 UUID attempts
the cached producer path and returns its bytes (tagged with the cache
source) when non-empty; everything else falls back to the hash-selected
default. -/
def retrieveSkin (env : MojangEnv) (request : CraftheadRequest) :
    Except String Response × CallLog :=
  if request.identity = "char" ∨ request.identity = "MHF_Steve" then
    (Except.ok { body := STEVE_SKIN, status := 200, cacheHitHeader := none }, CallLog.empty)
  else
    let norm := normalizeRequest env request
    if norm.1.identity = "" then
      (Except.ok { body := STEVE_SKIN, status := 200, cacheHitHeader := some "unknown" },
       norm.2)
    else
      match fromHex norm.1.identity with
      | none => (Except.error "FormatError: malformed UUID text", norm.2)
      | some rawUuid =>
          if uuidVersion rawUuid = 4 then
            let comp := computeBuffer env ("skin:" ++ norm.1.identity)
                (fun _ => skinProducer env norm.1.identity)
            match comp.1 with
            | Except.error e => (Except.error e, norm.2 ++ comp.2)
            | Except.ok response =>
                match response.result with
                | some bytes =>
                    if 0 < bytes.length then
                      (Except.ok { body := bytes, status := 200, cacheHitHeader := some response.source },
                       norm.2 ++ comp.2)
                    else
                      (Except.ok (fallbackSkinResponse rawUuid), norm.2 ++ comp.2)
                | none => (Except.ok (fallbackSkinResponse rawUuid), norm.2 ++ comp.2)
          else
            (Except.ok (fallbackSkinResponse rawUuid), norm.2)

/-- `fetchProfile` (service.ts lines 139-148): normalize, then short-circuit
to `{null, source: mojang}` when the normalized UUID has version 3, else
delegate to `mojangApi.fetchProfile`. -/
def fetchProfile (env : MojangEnv) (request : CraftheadRequest) :
    Except String (CacheComputeResult (Option MojangProfile)) × CallLog :=
  let norm := normalizeRequest env request
  match fromHex norm.1.identity with
  | none => (Except.error "FormatError: malformed UUID text", norm.2)
  | some raw =>
      if uuidVersion raw = 3 then
        (Except.ok { result := none, source := "mojang" }, norm.2)
      else
        (Except.ok (env.fetchProfileApi norm.1.identity),
         { norm.2 with profileFetches := norm.2.profileFetches ++ [norm.1.identity] })

/-- A tiny object heap for stating the frame effect of `normalizeRequest`:
JavaScript request objects live in slots addressed by `Nat` references. -/
structure Heap where
  objs : List CraftheadRequest
deriving DecidableEq, Repr

/-- Dereference a heap slot. -/
def Heap.get (h : Heap) (r : Nat) : Option CraftheadRequest :=
  h.objs[r]?

/-- Allocate a fresh object (as `Object.assign({}, request)` does), returning
the new heap and the fresh reference. -/
def Heap.alloc (h : Heap) (o : CraftheadRequest) : Heap × Nat :=
  ({ objs := h.objs ++ [o] }, h.objs.length)

/-- Mutate the object in a slot in place (a JavaScript field assignment). -/
def Heap.update (h : Heap) (r : Nat) (f : CraftheadRequest → CraftheadRequest) : Heap :=
  { objs :=
      match h.objs[r]? with
      | some o => h.objs.set r (f o)
      | none => h.objs }

/-- Heap-passing rendering of `normalizeRequest` (service.ts lines 38-54),
keeping the source's mutation structure visible: the input reference is
returned as-is in the UUID case; otherwise `Object.assign({}, request)`
allocates a fresh object whose `identityType` and `identity` fields are then
assigned, and the fresh reference is returned. -/
def normalizeRequestH (env : MojangEnv) (h : Heap) (r : Nat) : Heap × Nat :=
  match h.get r with
  | none => (h, r)
  | some request =>
      if request.identityType = IdentityKind.Uuid then
        (h, r)
      else
        let a := h.alloc request
        let h1 := a.1.update a.2 (fun o => { o with identityType := IdentityKind.Uuid })
        match env.lookupUsername request.identity with
        | some profileLookup =>
            (h1.update a.2 (fun o => { o with identity := profileLookup.id }), a.2)
        | none =>
            (h1.update a.2 (fun o => { o with
                identity := toHex (offlinePlayerUuid env.md5 request.identity) }), a.2)

/-- Decidable equality for `Except`, so that concrete runs of the service can
be checked by evaluation. -/
instance (α β : Type) [DecidableEq α] [DecidableEq β] : DecidableEq (Except α β) :=
  fun a b =>
    match a, b with
    | Except.error x, Except.error y =>
        if h : x = y then isTrue (by rw [h]) else isFalse (by intro hc; cases hc; exact h rfl)
    | Except.ok x, Except.ok y =>
        if h : x = y then isTrue (by rw [h]) else isFalse (by intro hc; cases hc; exact h rfl)
    | Except.error _, Except.ok _ => isFalse (by intro hc; cases hc)
    | Except.ok _, Except.error _ => isFalse (by intro hc; cases hc)

/-- A bare profile without a `properties` list. -/
def wProfileBare : MojangProfile :=
  { id := "11111111111141111111111111111111", name := "bare", properties := none }

/-- Concrete environment A: the username lookup succeeds, the cache holds
bytes for every key. -/
def wEnvA : MojangEnv :=
  { lookupUsername := fun _ => some { id := "ffffffffffffffffffffffffffffffff" },
    fetchProfileApi := fun _ => { result := none, source := "origin" },
    cache := fun _ => some [1, 2, 3],
    textureFetch := fun _ => { status := 200, body := [9] },
    decodeTextures := fun _ => { textures := { SKIN := none, CAPE := none } },
    md5 := fun _ => List.replicate 16 255 }

/-- Concrete environment B: lookup misses, cache holds different bytes
(used to observe that the fallback does not depend on collaborator state). -/
def wEnvB : MojangEnv :=
  { lookupUsername := fun _ => none,
    fetchProfileApi := fun _ => { result := none, source := "origin" },
    cache := fun _ => some [5, 6],
    textureFetch := fun _ => { status := 404, body := [] },
    decodeTextures := fun _ => { textures := { SKIN := none, CAPE := none } },
    md5 := fun _ => List.replicate 16 171 }

/-- Concrete environment C: a malformed username-lookup collaborator that
returns an empty id, driving `normalizeRequest` to an empty identity. -/
def wEnvC : MojangEnv :=
  { lookupUsername := fun _ => some { id := "" },
    fetchProfileApi := fun _ => { result := none, source := "origin" },
    cache := fun _ => none,
    textureFetch := fun _ => { status := 200, body := [1] },
    decodeTextures := fun _ => { textures := { SKIN := none, CAPE := none } },
    md5 := fun _ => List.replicate 16 0 }

/-- Concrete environment D: cache miss, profile fetch finds a profile that
has no textures property. -/
def wEnvD : MojangEnv :=
  { lookupUsername := fun _ => none,
    fetchProfileApi := fun _ => { result := some wProfileBare, source := "origin" },
    cache := fun _ => none,
    textureFetch := fun _ => { status := 200, body := [7, 7] },
    decodeTextures := fun _ => { textures := { SKIN := none, CAPE := none } },
    md5 := fun _ => List.replicate 16 3 }

/-- A profile carrying a textures property (value is opaque: decoding is the
environment's job). -/
def cexProfile : MojangProfile :=
  { id := "00000000000040000000000000000000", name := "someone",
    properties := some [{ name := "textures", value := "blob" }] }

/-- Concrete environment for end-to-end scenario D: cache miss, profile
found with a skin URL, texture fetch answers HTTP 500. -/
def cexEnv : MojangEnv :=
  { lookupUsername := fun _ => none,
    fetchProfileApi := fun _ => { result := some cexProfile, source := "origin" },
    cache := fun _ => none,
    textureFetch := fun _ => { status := 500, body := [] },
    decodeTextures := fun _ =>
      { textures := { SKIN := some { url := some "texture-url" }, CAPE := none } },
    md5 := fun _ => List.replicate 16 0 }

/-- A request already bearing a version-4 UUID. -/
def w4Req : CraftheadRequest :=
  { identity := "00000000000040000000000000000000", identityType := IdentityKind.Uuid }

/-- A request already bearing a version-3 UUID. -/
def w3Req : CraftheadRequest :=
  { identity := "00000000000030000000000000000000", identityType := IdentityKind.Uuid }

/-- The raw bytes of `w4Req`'s UUID. -/
def w4Raw : List Nat := [0, 0, 0, 0, 0, 0, 64, 0, 0, 0, 0, 0, 0, 0, 0, 0]

/-- The raw bytes of `w3Req`'s UUID. -/
def w3Raw : List Nat := [0, 0, 0, 0, 0, 0, 48, 0, 0, 0, 0, 0, 0, 0, 0, 0]

/-- A decoder whose textures object lacks the `SKIN` entry. -/
def wDecodeNoSkin : String → MojangTexturePropertyValue :=
  fun _ => { textures := { SKIN := none, CAPE := none } }

/-- A decoder whose `SKIN` entry lacks the `url`. -/
def wDecodeNoUrl : String → MojangTexturePropertyValue :=
  fun _ => { textures := { SKIN := some { url := none }, CAPE := none } }

/-- A concrete textures property entry. -/
def wTexProp : MojangProfileProperty := { name := "textures", value := "blob2" }

/-- A profile whose properties list contains a textures property. -/
def wProfileWithProps : MojangProfile :=
  { id := "22222222222242222222222222222222", name := "withProps",
    properties := some [wTexProp] }

/-- A username-typed request. -/
def wNotchReq : CraftheadRequest :=
  { identity := "Notch", identityType := IdentityKind.Username }

/-- A one-object heap holding `wNotchReq`. -/
def wHeap : Heap := { objs := [wNotchReq] }

/-- The call log of `normalizeRequest`: exactly one username lookup in the
non-UUID case, nothing otherwise. -/
theorem normalizeRequest_log (env : MojangEnv) (request : CraftheadRequest) :
    (normalizeRequest env request).2 =
      if request.identityType = IdentityKind.Uuid then CallLog.empty
      else { CallLog.empty with usernameLookups := [request.identity] } := by
  unfold normalizeRequest
  split
  · rfl
  · split <;> rfl

/-- `normalizeRequest` never touches the cache layer, the profile API or the
texture fetch. -/
theorem normalizeRequest_log_keys (env : MojangEnv) (request : CraftheadRequest) :
    (normalizeRequest env request).2.computeBufferKeys = [] ∧
    (normalizeRequest env request).2.profileFetches = [] ∧
    (normalizeRequest env request).2.textureFetches = [] := by
  rw [normalizeRequest_log]
  split <;> exact ⟨rfl, rfl, rfl⟩

/-- `fetchSkinTextureFromProfile` performs no cache, profile-API or username
lookups. -/
theorem fetchSkinTextureFromProfile_log (env : MojangEnv) (profile : MojangProfile) :
    (fetchSkinTextureFromProfile env profile).2.computeBufferKeys = [] ∧
    (fetchSkinTextureFromProfile env profile).2.profileFetches = [] ∧
    (fetchSkinTextureFromProfile env profile).2.usernameLookups = [] := by
  unfold fetchSkinTextureFromProfile
  dsimp only
  repeat' split
  all_goals exact ⟨rfl, rfl, rfl⟩

/-- The producer invokes the profile API exactly once and never the cache
layer or a username lookup. -/
theorem skinProducer_log (env : MojangEnv) (identity : String) :
    (skinProducer env identity).2.computeBufferKeys = [] ∧
    (skinProducer env identity).2.usernameLookups = [] ∧
    (skinProducer env identity).2.profileFetches = [identity] := by
  unfold skinProducer
  split
  · rename_i profile heq
    have h := fetchSkinTextureFromProfile_log env profile
    exact ⟨h.1, h.2.2, by simp [h.2.1]⟩
  · exact ⟨rfl, rfl, rfl⟩

/-- Each `computeBuffer` invocation is logged under its key. -/
theorem computeBuffer_keys (env : MojangEnv) (key : String)
    (producer : Unit → Except String (Option (List Nat)) × CallLog)
    (hp : (producer ()).2.computeBufferKeys = []) :
    (computeBuffer env key producer).2.computeBufferKeys = [key] := by
  unfold computeBuffer
  dsimp only
  split
  · rfl
  · split <;> simp [hp]

/-- `retrieveSkin` on the two special literals. -/
theorem retrieveSkin_eq_special (env : MojangEnv) (request : CraftheadRequest)
    (hs : request.identity = "char" ∨ request.identity = "MHF_Steve") :
    retrieveSkin env request =
      (Except.ok { body := STEVE_SKIN, status := 200, cacheHitHeader := none },
       CallLog.empty) := by
  unfold retrieveSkin
  rw [if_pos hs]

/-- `retrieveSkin` when normalization yields an empty identity. -/
theorem retrieveSkin_eq_empty (env : MojangEnv) (request : CraftheadRequest)
    (h1 : request.identity ≠ "char") (h2 : request.identity ≠ "MHF_Steve")
    (h3 : (normalizeRequest env request).1.identity = "") :
    retrieveSkin env request =
      (Except.ok { body := STEVE_SKIN, status := 200, cacheHitHeader := some "unknown" },
       (normalizeRequest env request).2) := by
  unfold retrieveSkin
  rw [if_neg (by simp [h1, h2])]
  dsimp only
  rw [if_pos h3]

/-- `retrieveSkin` when the normalized identity is not valid UUID hex text. -/
theorem retrieveSkin_eq_badHex (env : MojangEnv) (request : CraftheadRequest)
    (h1 : request.identity ≠ "char") (h2 : request.identity ≠ "MHF_Steve")
    (h3 : (normalizeRequest env request).1.identity ≠ "")
    (h4 : fromHex (normalizeRequest env request).1.identity = none) :
    retrieveSkin env request =
      (Except.error "FormatError: malformed UUID text", (normalizeRequest env request).2) := by
  unfold retrieveSkin
  rw [if_neg (by simp [h1, h2])]
  dsimp only
  rw [if_neg h3, h4]

/-- `retrieveSkin` when the normalized UUID is not version 4: the hash
fallback is taken and only the normalization log accrues. -/
theorem retrieveSkin_eq_of_not_v4 (env : MojangEnv) (request : CraftheadRequest)
    (raw : List Nat)
    (h1 : request.identity ≠ "char") (h2 : request.identity ≠ "MHF_Steve")
    (h3 : (normalizeRequest env request).1.identity ≠ "")
    (h4 : fromHex (normalizeRequest env request).1.identity = some raw)
    (h5 : uuidVersion raw ≠ 4) :
    retrieveSkin env request =
      (Except.ok (fallbackSkinResponse raw), (normalizeRequest env request).2) := by
  unfold retrieveSkin
  rw [if_neg (by simp [h1, h2])]
  dsimp only
  rw [if_neg h3, h4]
  dsimp only
  rw [if_neg h5]

/-- `retrieveSkin` on a version-4 UUID reduces to the `computeBuffer`
outcome. -/
theorem retrieveSkin_eq_of_v4 (env : MojangEnv) (request : CraftheadRequest)
    (raw : List Nat)
    (h1 : request.identity ≠ "char") (h2 : request.identity ≠ "MHF_Steve")
    (h3 : (normalizeRequest env request).1.identity ≠ "")
    (h4 : fromHex (normalizeRequest env request).1.identity = some raw)
    (h5 : uuidVersion raw = 4) :
    retrieveSkin env request =
      (match (computeBuffer env ("skin:" ++ (normalizeRequest env request).1.identity)
          (fun _ => skinProducer env (normalizeRequest env request).1.identity)).1 with
       | Except.error e =>
           (Except.error e,
            (normalizeRequest env request).2 ++
              (computeBuffer env ("skin:" ++ (normalizeRequest env request).1.identity)
                (fun _ => skinProducer env (normalizeRequest env request).1.identity)).2)
       | Except.ok response =>
           match response.result with
           | some bytes =>
               if 0 < bytes.length then
                 (Except.ok { body := bytes, status := 200, cacheHitHeader := some response.source },
                  (normalizeRequest env request).2 ++
                    (computeBuffer env ("skin:" ++ (normalizeRequest env request).1.identity)
                      (fun _ => skinProducer env (normalizeRequest env request).1.identity)).2)
               else
                 (Except.ok (fallbackSkinResponse raw),
                  (normalizeRequest env request).2 ++
                    (computeBuffer env ("skin:" ++ (normalizeRequest env request).1.identity)
                      (fun _ => skinProducer env (normalizeRequest env request).1.identity)).2)
           | none =>
               (Except.ok (fallbackSkinResponse raw),
                (normalizeRequest env request).2 ++
                  (computeBuffer env ("skin:" ++ (normalizeRequest env request).1.identity)
                    (fun _ => skinProducer env (normalizeRequest env request).1.identity)).2)) := by
  unfold retrieveSkin
  rw [if_neg (by simp [h1, h2])]
  dsimp only
  rw [if_neg h3, h4]
  dsimp only
  rw [if_pos h5]

/-- In the version-4 branch the log is normalization plus the cache-layer
run, whatever the outcome. -/
theorem retrieveSkin_v4_log (env : MojangEnv) (request : CraftheadRequest)
    (raw : List Nat)
    (h1 : request.identity ≠ "char") (h2 : request.identity ≠ "MHF_Steve")
    (h3 : (normalizeRequest env request).1.identity ≠ "")
    (h4 : fromHex (normalizeRequest env request).1.identity = some raw)
    (h5 : uuidVersion raw = 4) :
    (retrieveSkin env request).2 =
      (normalizeRequest env request).2 ++
        (computeBuffer env ("skin:" ++ (normalizeRequest env request).1.identity)
          (fun _ => skinProducer env (normalizeRequest env request).1.identity)).2 := by
  rw [retrieveSkin_eq_of_v4 env request raw h1 h2 h3 h4 h5]
  repeat' split
  all_goals rfl

/-- Projection of log concatenation onto `computeBufferKeys`. -/
theorem CallLog.append_keys (a b : CallLog) :
    (a ++ b).computeBufferKeys = a.computeBufferKeys ++ b.computeBufferKeys := rfl

/-- Projection of log concatenation onto `profileFetches`. -/
theorem CallLog.append_profileFetches (a b : CallLog) :
    (a ++ b).profileFetches = a.profileFetches ++ b.profileFetches := rfl

/-- The texture fetch failing with a non-2xx status makes
`fetchSkinTextureFromProfile` throw the explicit error. -/
theorem fetchSkinTextureFromProfile_error (env : MojangEnv) (profile : MojangProfile)
    (props : List MojangProfileProperty) (url : String)
    (hp : profile.properties = some props)
    (hurl : extractUrlFromTexturesProperty env.decodeTextures
        (props.find? (fun property => property.name = "textures")) = some url)
    (hne : url ≠ "")
    (hst : ¬(200 ≤ (env.textureFetch url).status ∧ (env.textureFetch url).status ≤ 299)) :
    (fetchSkinTextureFromProfile env profile).1 =
      Except.error ("Unable to retrieve skin texture from Mojang, http status "
        ++ toString (env.textureFetch url).status) := by
  unfold fetchSkinTextureFromProfile
  rw [hp]
  dsimp only
  rw [hurl]
  dsimp only
  rw [if_neg hne, if_neg hst]

/-- Without a texture URL, `fetchSkinTextureFromProfile` yields the Steve
skin and performs no fetch. -/
theorem fetchSkinTextureFromProfile_default (env : MojangEnv) (profile : MojangProfile)
    (h : profile.properties = none ∨ ∃ props, profile.properties = some props ∧
        extractUrlFromTexturesProperty env.decodeTextures
          (props.find? (fun property => property.name = "textures")) = none) :
    fetchSkinTextureFromProfile env profile = (Except.ok STEVE_SKIN, CallLog.empty) := by
  unfold fetchSkinTextureFromProfile
  rcases h with h | ⟨props, hp, hurl⟩
  · rw [h]
  · rw [hp]
    dsimp only
    rw [hurl]

/-- The producer's value is the texture result when the profile exists. -/
theorem skinProducer_of_profile (env : MojangEnv) (identity : String)
    (profile : MojangProfile)
    (h : (env.fetchProfileApi identity).result = some profile) :
    (skinProducer env identity).1 = (fetchSkinTextureFromProfile env profile).1.map some := by
  unfold skinProducer
  rw [h]

/-- The producer returns an empty buffer when the profile is absent. -/
theorem skinProducer_no_profile (env : MojangEnv) (identity : String)
    (h : (env.fetchProfileApi identity).result = none) :
    (skinProducer env identity).1 = Except.ok (some []) := by
  unfold skinProducer
  rw [h]

/-- A cache hit returns the stored bytes with source `cache` and does not run
the producer. -/
theorem computeBuffer_hit (env : MojangEnv) (key : String)
    (producer : Unit → Except String (Option (List Nat)) × CallLog)
    (cached : List Nat) (h : env.cache key = some cached) :
    computeBuffer env key producer =
      (Except.ok { result := some cached, source := "cache" },
       { CallLog.empty with computeBufferKeys := [key] }) := by
  unfold computeBuffer
  rw [h]

/-- On a miss, a producer error propagates out of `computeBuffer`. -/
theorem computeBuffer_miss_error (env : MojangEnv) (key : String)
    (producer : Unit → Except String (Option (List Nat)) × CallLog) (e : String)
    (h : env.cache key = none) (he : (producer ()).1 = Except.error e) :
    (computeBuffer env key producer).1 = Except.error e := by
  unfold computeBuffer
  rw [h]
  dsimp only
  rw [he]

/-- On a miss, a produced value is returned with source `origin`. -/
theorem computeBuffer_miss_some (env : MojangEnv) (key : String)
    (producer : Unit → Except String (Option (List Nat)) × CallLog) (v : List Nat)
    (h : env.cache key = none) (hv : (producer ()).1 = Except.ok (some v)) :
    (computeBuffer env key producer).1 =
      Except.ok { result := some v, source := "origin" } := by
  unfold computeBuffer
  rw [h]
  dsimp only
  rw [hv]

/-- Claim C1 (counterexample): in end-to-end scenario D — cache miss, profile
found with a skin URL, texture fetch answering HTTP 500 — `retrieveSkin` does
not fall through to the deterministic default-image path: it returns the
producer's error, not a default-image response. -/
theorem retrieveSkin_scenarioD_cex :
    (retrieveSkin cexEnv w4Req).1 =
      Except.error "Unable to retrieve skin texture from Mojang, http status 500" ∧
    (retrieveSkin cexEnv w4Req).1 ≠ Except.ok (fallbackSkinResponse w4Raw) := by
  constructor
  · decide
  · decide

/-- Claim C1 (amended): if the texture image fetch inside the producer
responds with a non-2xx HTTP status, the producer fails with an explicit
error, and `retrieveSkin` propagates that producer failure to its caller —
the failure is observed rather than silently treated as success, and the
deterministic default-image path is not taken. -/
theorem retrieveSkin_texture_error_propagates (env : MojangEnv)
    (request : CraftheadRequest) (raw : List Nat) (profile : MojangProfile)
    (props : List MojangProfileProperty) (url : String)
    (h1 : request.identity ≠ "char") (h2 : request.identity ≠ "MHF_Steve")
    (h3 : (normalizeRequest env request).1.identity ≠ "")
    (h4 : fromHex (normalizeRequest env request).1.identity = some raw)
    (h5 : uuidVersion raw = 4)
    (h6 : env.cache ("skin:" ++ (normalizeRequest env request).1.identity) = none)
    (h7 : (env.fetchProfileApi (normalizeRequest env request).1.identity).result = some profile)
    (h8 : profile.properties = some props)
    (h9 : extractUrlFromTexturesProperty env.decodeTextures
        (props.find? (fun property => property.name = "textures")) = some url)
    (h10 : url ≠ "")
    (h11 : ¬(200 ≤ (env.textureFetch url).status ∧ (env.textureFetch url).status ≤ 299)) :
    (retrieveSkin env request).1 =
      Except.error ("Unable to retrieve skin texture from Mojang, http status "
        ++ toString (env.textureFetch url).status) := by
  have hprod : (skinProducer env (normalizeRequest env request).1.identity).1 =
      Except.error ("Unable to retrieve skin texture from Mojang, http status "
        ++ toString (env.textureFetch url).status) := by
    rw [skinProducer_of_profile env _ profile h7,
      fetchSkinTextureFromProfile_error env profile props url h8 h9 h10 h11]
    rfl
  have hcomp := computeBuffer_miss_error env
    ("skin:" ++ (normalizeRequest env request).1.identity)
    (fun _ => skinProducer env (normalizeRequest env request).1.identity) _ h6 hprod
  rw [retrieveSkin_eq_of_v4 env request raw h1 h2 h3 h4 h5]
  simp only [hcomp]

/-- Witness for claim C1's amended theorem at scenario D's concrete input. -/
theorem retrieveSkin_texture_error_propagates_witness :
    (retrieveSkin cexEnv w4Req).1 =
      Except.error ("Unable to retrieve skin texture from Mojang, http status "
        ++ toString (cexEnv.textureFetch "texture-url").status) :=
  retrieveSkin_texture_error_propagates cexEnv w4Req w4Raw cexProfile
    [{ name := "textures", value := "blob" }] "texture-url"
    (by decide) (by decide) (by decide) (by decide) (by decide) (by decide)
    (by decide) (by decide) (by decide) (by decide) (by decide)

/-- Claim C2: for every request whose identity kind is Username,
`normalizeRequest` never fails outward (it is total): the result bears
`kind = Uuid`, its identity is the looked-up id on a positive lookup, and the
offline-derived UUID `toHex (offlinePlayerUuid md5 username)` on a
negative/absent lookup. -/
theorem normalizeRequest_username (env : MojangEnv) (request : CraftheadRequest)
    (h : request.identityType = IdentityKind.Username) :
    (normalizeRequest env request).1.identityType = IdentityKind.Uuid ∧
    ((∃ pl, env.lookupUsername request.identity = some pl ∧
        (normalizeRequest env request).1.identity = pl.id) ∨
     (env.lookupUsername request.identity = none ∧
      (normalizeRequest env request).1.identity =
        toHex (offlinePlayerUuid env.md5 request.identity))) := by
  unfold normalizeRequest
  rw [if_neg (by simp [h])]
  cases hl : env.lookupUsername request.identity with
  | some pl => exact ⟨rfl, Or.inl ⟨pl, rfl, rfl⟩⟩
  | none => exact ⟨rfl, Or.inr ⟨rfl, rfl⟩⟩

/-- Witness for claim C2 at a concrete username request. -/
theorem normalizeRequest_username_witness :
    (normalizeRequest wEnvA wNotchReq).1.identityType = IdentityKind.Uuid :=
  (normalizeRequest_username wEnvA wNotchReq rfl).1

/-- Claim C3: `retrieveSkin` attempts the cached profile/texture path
(`computeBuffer` with key `skin:` ++ uuid) only when the normalized UUID's
version nibble is 4; for any other version it never invokes `computeBuffer`
or the profile-fetch collaborator and goes directly to the deterministic
default-image selection. -/
theorem retrieveSkin_v4_gate (env : MojangEnv) (request : CraftheadRequest) :
    ((retrieveSkin env request).2.computeBufferKeys ≠ [] →
      ∃ raw, fromHex (normalizeRequest env request).1.identity = some raw ∧
        uuidVersion raw = 4 ∧
        (retrieveSkin env request).2.computeBufferKeys =
          ["skin:" ++ (normalizeRequest env request).1.identity]) ∧
    (∀ raw, request.identity ≠ "char" → request.identity ≠ "MHF_Steve" →
      (normalizeRequest env request).1.identity ≠ "" →
      fromHex (normalizeRequest env request).1.identity = some raw →
      uuidVersion raw ≠ 4 →
      (retrieveSkin env request).2.computeBufferKeys = [] ∧
      (retrieveSkin env request).2.profileFetches = [] ∧
      (retrieveSkin env request).1 = Except.ok (fallbackSkinResponse raw)) := by
  constructor
  · intro hne
    by_cases hs : request.identity = "char" ∨ request.identity = "MHF_Steve"
    · rw [retrieveSkin_eq_special env request hs] at hne
      exact absurd rfl hne
    push_neg at hs
    by_cases hid : (normalizeRequest env request).1.identity = ""
    · rw [retrieveSkin_eq_empty env request hs.1 hs.2 hid] at hne
      exact absurd (normalizeRequest_log_keys env request).1 hne
    cases hhex : fromHex (normalizeRequest env request).1.identity with
    | none =>
        rw [retrieveSkin_eq_badHex env request hs.1 hs.2 hid hhex] at hne
        exact absurd (normalizeRequest_log_keys env request).1 hne
    | some raw =>
        by_cases hv : uuidVersion raw = 4
        · refine ⟨raw, rfl, hv, ?_⟩
          rw [retrieveSkin_v4_log env request raw hs.1 hs.2 hid hhex hv,
            CallLog.append_keys, (normalizeRequest_log_keys env request).1,
            computeBuffer_keys env _ _ (skinProducer_log env _).1]
          rfl
        · rw [retrieveSkin_eq_of_not_v4 env request raw hs.1 hs.2 hid hhex hv] at hne
          exact absurd (normalizeRequest_log_keys env request).1 hne
  · intro raw h1 h2 h3 h4 h5
    rw [retrieveSkin_eq_of_not_v4 env request raw h1 h2 h3 h4 h5]
    exact ⟨(normalizeRequest_log_keys env request).1,
      (normalizeRequest_log_keys env request).2.1, rfl⟩

/-- Witness for claim C3: a version-3 UUID takes the direct default path, a
version-4 UUID logs exactly one `computeBuffer` call. -/
theorem retrieveSkin_v4_gate_witness :
    ((retrieveSkin wEnvA w3Req).2.computeBufferKeys = [] ∧
     (retrieveSkin wEnvA w3Req).2.profileFetches = [] ∧
     (retrieveSkin wEnvA w3Req).1 = Except.ok (fallbackSkinResponse w3Raw)) ∧
    (retrieveSkin wEnvA w4Req).2.computeBufferKeys =
      ["skin:" ++ (normalizeRequest wEnvA w4Req).1.identity] := by
  refine ⟨(retrieveSkin_v4_gate wEnvA w3Req).2 w3Raw (by decide) (by decide)
    (by decide) (by decide) (by decide), ?_⟩
  obtain ⟨raw, hhex, hv, hkeys⟩ := (retrieveSkin_v4_gate wEnvA w4Req).1 (by decide)
  exact hkeys

/-- Claim C4: whenever `retrieveSkin` reaches the fallback branch (version
not 4, or the version-4 path yielded no bytes), the image is chosen by
`javaHashCode` of the raw UUID bytes modulo 2 — 0 selects Steve, 1 selects
Alex — tagged `invalid-profile`, and the same unresolvable identity yields
the same fallback on every call, whatever the collaborator state. -/
theorem retrieveSkin_fallback_hash (env : MojangEnv) (request : CraftheadRequest)
    (raw : List Nat)
    (h1 : request.identity ≠ "char") (h2 : request.identity ≠ "MHF_Steve")
    (h3 : (normalizeRequest env request).1.identity ≠ "")
    (h4 : fromHex (normalizeRequest env request).1.identity = some raw)
    (h5 : uuidVersion raw ≠ 4 ∨
      ∃ res, (computeBuffer env ("skin:" ++ (normalizeRequest env request).1.identity)
          (fun _ => skinProducer env (normalizeRequest env request).1.identity)).1 =
            Except.ok res ∧ (res.result = none ∨ res.result = some [])) :
    (retrieveSkin env request).1 =
      Except.ok (if (javaHashCode raw).natAbs % 2 = 0 then
          { body := STEVE_SKIN, status := 200, cacheHitHeader := some "invalid-profile" }
        else
          { body := ALEX_SKIN, status := 200, cacheHitHeader := some "invalid-profile" }) ∧
    (∀ env2 : MojangEnv, uuidVersion raw ≠ 4 →
      (normalizeRequest env2 request).1 = (normalizeRequest env request).1 →
      (retrieveSkin env2 request).1 = (retrieveSkin env request).1) := by
  have hfb : (retrieveSkin env request).1 = Except.ok (fallbackSkinResponse raw) := by
    by_cases hv : uuidVersion raw = 4
    · rcases h5 with hv4 | ⟨res, hres, hempty⟩
      · exact absurd hv hv4
      · rw [retrieveSkin_eq_of_v4 env request raw h1 h2 h3 h4 hv]
        rcases hempty with he | he <;> simp [hres, he]
    · rw [retrieveSkin_eq_of_not_v4 env request raw h1 h2 h3 h4 hv]
  constructor
  · rw [hfb]
    unfold fallbackSkinResponse
    rfl
  · intro env2 hv hnorm
    have h32 : (normalizeRequest env2 request).1.identity ≠ "" := by rw [hnorm]; exact h3
    have h42 : fromHex (normalizeRequest env2 request).1.identity = some raw := by
      rw [hnorm]; exact h4
    rw [retrieveSkin_eq_of_not_v4 env2 request raw h1 h2 h32 h42 hv, hfb]

/-- Witness for claim C4: the version-3 UUID gets its hash-selected default,
identically under two different collaborator environments. -/
theorem retrieveSkin_fallback_hash_witness :
    (retrieveSkin wEnvA w3Req).1 =
      Except.ok (if (javaHashCode w3Raw).natAbs % 2 = 0 then
          { body := STEVE_SKIN, status := 200, cacheHitHeader := some "invalid-profile" }
        else
          { body := ALEX_SKIN, status := 200, cacheHitHeader := some "invalid-profile" }) ∧
    (retrieveSkin wEnvB w3Req).1 = (retrieveSkin wEnvA w3Req).1 := by
  have h := retrieveSkin_fallback_hash wEnvA w3Req w3Raw (by decide) (by decide)
    (by decide) (by decide) (Or.inl (by decide))
  exact ⟨h.1, h.2 wEnvB (by decide) (by decide)⟩

/-- Claim C5: `fetchProfile` short-circuits to `{null, source: mojang}`
without invoking the profile-fetch collaborator when the normalized UUID has
version 3, and otherwise delegates to the collaborator and returns its
result — so the provenance source field is always set. -/
theorem fetchProfile_version_gate (env : MojangEnv) (request : CraftheadRequest)
    (raw : List Nat)
    (h : fromHex (normalizeRequest env request).1.identity = some raw) :
    (uuidVersion raw = 3 →
      (fetchProfile env request).1 = Except.ok { result := none, source := "mojang" } ∧
      (fetchProfile env request).2.profileFetches = []) ∧
    (uuidVersion raw ≠ 3 →
      (fetchProfile env request).1 =
        Except.ok (env.fetchProfileApi (normalizeRequest env request).1.identity) ∧
      (fetchProfile env request).2.profileFetches =
        [(normalizeRequest env request).1.identity]) := by
  unfold fetchProfile
  dsimp only
  rw [h]
  dsimp only
  constructor
  · intro hv
    rw [if_pos hv]
    exact ⟨rfl, (normalizeRequest_log_keys env request).2.1⟩
  · intro hv
    rw [if_neg hv]
    refine ⟨rfl, ?_⟩
    show (normalizeRequest env request).2.profileFetches ++ _ = _
    rw [(normalizeRequest_log_keys env request).2.1]
    rfl

/-- Witness for claim C5: a version-3 UUID short-circuits, a version-4 UUID
delegates. -/
theorem fetchProfile_version_gate_witness :
    ((fetchProfile wEnvA w3Req).1 = Except.ok { result := none, source := "mojang" } ∧
     (fetchProfile wEnvA w3Req).2.profileFetches = []) ∧
    ((fetchProfile wEnvD w4Req).1 =
        Except.ok (wEnvD.fetchProfileApi (normalizeRequest wEnvD w4Req).1.identity) ∧
     (fetchProfile wEnvD w4Req).2.profileFetches =
        [(normalizeRequest wEnvD w4Req).1.identity]) :=
  ⟨(fetchProfile_version_gate wEnvA w3Req w3Raw (by decide)).1 (by decide),
   (fetchProfile_version_gate wEnvD w4Req w4Raw (by decide)).2 (by decide)⟩

/-- Claim C6: if normalization yields an empty/undefined identity value,
`retrieveSkin` does not crash: it returns a default image tagged with the
distinct provenance value `unknown` and performs no cache, profile or
texture fetch. -/
theorem retrieveSkin_empty_unknown (env : MojangEnv) (request : CraftheadRequest)
    (h1 : request.identity ≠ "char") (h2 : request.identity ≠ "MHF_Steve")
    (h3 : (normalizeRequest env request).1.identity = "") :
    (retrieveSkin env request).1 =
      Except.ok { body := STEVE_SKIN, status := 200, cacheHitHeader := some "unknown" } ∧
    (retrieveSkin env request).2.computeBufferKeys = [] ∧
    (retrieveSkin env request).2.profileFetches = [] ∧
    (retrieveSkin env request).2.textureFetches = [] := by
  rw [retrieveSkin_eq_empty env request h1 h2 h3]
  exact ⟨rfl, (normalizeRequest_log_keys env request).1,
    (normalizeRequest_log_keys env request).2.1,
    (normalizeRequest_log_keys env request).2.2⟩

/-- Witness for claim C6: a malformed lookup collaborator returning an empty
id routes to the `unknown`-tagged default. -/
theorem retrieveSkin_empty_unknown_witness :
    (retrieveSkin wEnvC { identity := "noone", identityType := IdentityKind.Username }).1 =
      Except.ok { body := STEVE_SKIN, status := 200, cacheHitHeader := some "unknown" } ∧
    (retrieveSkin wEnvC { identity := "noone", identityType := IdentityKind.Username }).2.computeBufferKeys = [] ∧
    (retrieveSkin wEnvC { identity := "noone", identityType := IdentityKind.Username }).2.profileFetches = [] ∧
    (retrieveSkin wEnvC { identity := "noone", identityType := IdentityKind.Username }).2.textureFetches = [] :=
  retrieveSkin_empty_unknown wEnvC _ (by decide) (by decide) (by decide)

/-- Claim C7: for the special-cased literal identities `char` and
`MHF_Steve`, `retrieveSkin` returns the fixed default Steve skin immediately,
with an empty call log — before normalization or any lookup, regardless of
any collaborator behavior (the environment is universally quantified). -/
theorem retrieveSkin_special_literal (env : MojangEnv) (request : CraftheadRequest)
    (h : request.identity = "char" ∨ request.identity = "MHF_Steve") :
    retrieveSkin env request =
      (Except.ok { body := STEVE_SKIN, status := 200, cacheHitHeader := none },
       CallLog.empty) :=
  retrieveSkin_eq_special env request h

/-- Witness for claim C7 at the literal `char`. -/
theorem retrieveSkin_special_literal_witness :
    retrieveSkin wEnvA { identity := "char", identityType := IdentityKind.Username } =
      (Except.ok { body := STEVE_SKIN, status := 200, cacheHitHeader := none },
       CallLog.empty) :=
  retrieveSkin_special_literal wEnvA _ (Or.inl rfl)

/-- Claim C8: texture URL extraction is a three-level optional-access
contract: an absent textures property, an absent `SKIN` entry, and an absent
`url` are each independently representable as missing and each yields the
single terminal "not found" outcome, in which case no texture is fetched and
the Steve default is produced instead of an exception. -/
theorem texture_extraction_optional (env : MojangEnv)
    (decode : String → MojangTexturePropertyValue) :
    (extractUrlFromTexturesProperty decode none = none) ∧
    (∀ p, (decode p.value).textures.SKIN = none →
      extractUrlFromTexturesProperty decode (some p) = none) ∧
    (∀ p skin, (decode p.value).textures.SKIN = some skin → skin.url = none →
      extractUrlFromTexturesProperty decode (some p) = none) ∧
    (∀ profile props, profile.properties = some props →
      extractUrlFromTexturesProperty env.decodeTextures
        (props.find? (fun property => property.name = "textures")) = none →
      fetchSkinTextureFromProfile env profile = (Except.ok STEVE_SKIN, CallLog.empty)) := by
  refine ⟨rfl, ?_, ?_, ?_⟩
  · intro p hskin
    unfold extractUrlFromTexturesProperty
    dsimp only
    rw [hskin]
    rfl
  · intro p skin hskin hurl
    unfold extractUrlFromTexturesProperty
    dsimp only
    rw [hskin]
    simp [hurl]
  · intro profile props hp hurl
    exact fetchSkinTextureFromProfile_default env profile (Or.inr ⟨props, hp, hurl⟩)

/-- Witness for claim C8: all three missing levels at concrete inputs. -/
theorem texture_extraction_optional_witness :
    extractUrlFromTexturesProperty wDecodeNoSkin none = none ∧
    extractUrlFromTexturesProperty wDecodeNoSkin (some wTexProp) = none ∧
    extractUrlFromTexturesProperty wDecodeNoUrl (some wTexProp) = none ∧
    fetchSkinTextureFromProfile wEnvD wProfileWithProps =
      (Except.ok STEVE_SKIN, CallLog.empty) :=
  ⟨(texture_extraction_optional wEnvD wDecodeNoSkin).1,
   (texture_extraction_optional wEnvD wDecodeNoSkin).2.1 wTexProp (by decide),
   (texture_extraction_optional wEnvD wDecodeNoUrl).2.2.1 wTexProp { url := none }
     (by decide) (by decide),
   (texture_extraction_optional wEnvD wDecodeNoSkin).2.2.2 wProfileWithProps [wTexProp]
     (by decide) (by decide)⟩

/-- Claim C9: `normalizeRequest` produces a new request object rather than
mutating its input: in the heap model, the input slot is unchanged after the
call; with input kind `Uuid` the input reference itself is returned, and
otherwise a fresh reference (distinct from the input) holds the normalized
request. -/
theorem normalizeRequestH_frame (env : MojangEnv) (h : Heap) (r : Nat)
    (req : CraftheadRequest) (hr : h.get r = some req) :
    ((normalizeRequestH env h r).1.get r = some req) ∧
    (req.identityType = IdentityKind.Uuid → normalizeRequestH env h r = (h, r)) ∧
    (req.identityType ≠ IdentityKind.Uuid →
      (normalizeRequestH env h r).2 ≠ r ∧
      (normalizeRequestH env h r).1.get (normalizeRequestH env h r).2 =
        some (normalizeRequest env req).1) := by
  have hlt : r < h.objs.length := by
    by_contra hge
    push_neg at hge
    have : h.objs[r]? = none := List.getElem?_eq_none_iff.mpr hge
    rw [Heap.get, this] at hr
    cases hr
  have hner : h.objs.length ≠ r := Nat.ne_of_gt hlt
  unfold normalizeRequestH
  rw [hr]
  dsimp only
  by_cases hk : req.identityType = IdentityKind.Uuid
  · rw [if_pos hk]
    exact ⟨hr, fun _ => rfl, fun hc => absurd hk hc⟩
  · rw [if_neg hk]
    dsimp only [Heap.alloc, Heap.update, Heap.get]
    have hconcat : (h.objs ++ [req])[h.objs.length]? = some req :=
      List.getElem?_concat_length h.objs req
    rw [hconcat]
    dsimp only
    have hlen1 : h.objs.length < (h.objs ++ [req]).length := by
      simp
    have hset1 : ((h.objs ++ [req]).set h.objs.length
        { req with identityType := IdentityKind.Uuid })[h.objs.length]? =
        some { req with identityType := IdentityKind.Uuid } :=
      List.getElem?_set_eq_of_lt _ hlen1
    cases hl : env.lookupUsername req.identity with
    | some pl =>
        rw [hset1]
        dsimp only
        refine ⟨?_, fun hc => absurd hc hk, fun _ => ⟨hner, ?_⟩⟩
        · rw [List.getElem?_set_ne hner, List.getElem?_set_ne hner,
            List.getElem?_append_left hlt]
          exact hr
        · rw [List.getElem?_set_eq_of_lt _ (by simp)]
          unfold normalizeRequest
          rw [if_neg hk, hl]
    | none =>
        rw [hset1]
        dsimp only
        refine ⟨?_, fun hc => absurd hc hk, fun _ => ⟨hner, ?_⟩⟩
        · rw [List.getElem?_set_ne hner, List.getElem?_set_ne hner,
            List.getElem?_append_left hlt]
          exact hr
        · rw [List.getElem?_set_eq_of_lt _ (by simp)]
          unfold normalizeRequest
          rw [if_neg hk, hl]

/-- Witness for claim C9 on a one-object heap holding a username request. -/
theorem normalizeRequestH_frame_witness :
    (normalizeRequestH wEnvA wHeap 0).1.get 0 = some wNotchReq ∧
    (normalizeRequestH wEnvA wHeap 0).2 ≠ 0 ∧
    (normalizeRequestH wEnvA wHeap 0).1.get (normalizeRequestH wEnvA wHeap 0).2 =
      some (normalizeRequest wEnvA wNotchReq).1 := by
  have h := normalizeRequestH_frame wEnvA wHeap 0 wNotchReq (by decide)
  exact ⟨h.1, (h.2.2 (by decide)).1, (h.2.2 (by decide)).2⟩

/-- Claim C10: when a version-4 profile is found but yields no skin URL, the
producer returns the non-empty default Steve bytes (not an empty buffer), so
`retrieveSkin` returns the Steve image tagged with the `computeBuffer`
provenance (`origin` on a miss) rather than `invalid-profile`, and the
hash-based Steve/Alex fallback is not reached. -/
theorem retrieveSkin_v4_no_url_steve (env : MojangEnv) (request : CraftheadRequest)
    (raw : List Nat) (profile : MojangProfile)
    (h1 : request.identity ≠ "char") (h2 : request.identity ≠ "MHF_Steve")
    (h3 : (normalizeRequest env request).1.identity ≠ "")
    (h4 : fromHex (normalizeRequest env request).1.identity = some raw)
    (h5 : uuidVersion raw = 4)
    (h6 : env.cache ("skin:" ++ (normalizeRequest env request).1.identity) = none)
    (h7 : (env.fetchProfileApi (normalizeRequest env request).1.identity).result = some profile)
    (h8 : profile.properties = none ∨ ∃ props, profile.properties = some props ∧
      extractUrlFromTexturesProperty env.decodeTextures
        (props.find? (fun property => property.name = "textures")) = none) :
    (skinProducer env (normalizeRequest env request).1.identity).1 =
      Except.ok (some STEVE_SKIN) ∧
    STEVE_SKIN ≠ [] ∧
    (retrieveSkin env request).1 =
      Except.ok { body := STEVE_SKIN, status := 200, cacheHitHeader := some "origin" } ∧
    (retrieveSkin env request).1 ≠ Except.ok (fallbackSkinResponse raw) := by
  have hprod : (skinProducer env (normalizeRequest env request).1.identity).1 =
      Except.ok (some STEVE_SKIN) := by
    rw [skinProducer_of_profile env _ profile h7,
      fetchSkinTextureFromProfile_default env profile h8]
    rfl
  have hcomp := computeBuffer_miss_some env
    ("skin:" ++ (normalizeRequest env request).1.identity)
    (fun _ => skinProducer env (normalizeRequest env request).1.identity) _ h6 hprod
  have hmain : (retrieveSkin env request).1 =
      Except.ok { body := STEVE_SKIN, status := 200, cacheHitHeader := some "origin" } := by
    rw [retrieveSkin_eq_of_v4 env request raw h1 h2 h3 h4 h5]
    simp only [hcomp]
    rfl
  refine ⟨hprod, by decide, hmain, ?_⟩
  rw [hmain]
  unfold fallbackSkinResponse
  split <;> simp

/-- Witness for claim C10 at a concrete profile without textures. -/
theorem retrieveSkin_v4_no_url_steve_witness :
    (skinProducer wEnvD (normalizeRequest wEnvD w4Req).1.identity).1 =
      Except.ok (some STEVE_SKIN) ∧
    STEVE_SKIN ≠ [] ∧
    (retrieveSkin wEnvD w4Req).1 =
      Except.ok { body := STEVE_SKIN, status := 200, cacheHitHeader := some "origin" } ∧
    (retrieveSkin wEnvD w4Req).1 ≠ Except.ok (fallbackSkinResponse w4Raw) :=
  retrieveSkin_v4_no_url_steve wEnvD w4Req w4Raw wProfileBare
    (by decide) (by decide) (by decide) (by decide) (by decide) (by decide)
    (by decide) (Or.inl rfl)

end Crafthead
